import Mathlib

/-!
Verification of the SOFIA tutorial notebooks (FORCAST basic photometry,
FORCAST detailed photometry, EXES velocity calculation).

The photometry notebook loads a flux-calibrated image, sums the flux in a
circular aperture, estimates the sky background in a circular annulus,
subtracts the per-pixel background mean from the aperture sum, and combines
the relative error terms in quadrature.  Pixel fluxes are embedded as
rationals; quantities involving pi or a square root live in the reals.
-/

namespace Recipes

/-- A loaded image plane (`data[0].data`): a `h` by `w` grid of pixel flux
values in Jy/pixel.  Pixel `(x, y)` has its center at coordinates `(x, y)`. -/
structure Image where
  w : ℕ
  h : ℕ
  pix : ℕ → ℕ → ℚ

/-- The FITS header fields read by the photometry notebook. -/
structure Header where
  ERRCALF : ℚ
  CALFCTR : ℚ

/-- The pixel grid of an image, as the set of pixel coordinates. -/
def Image.grid (img : Image) : Finset (ℕ × ℕ) :=
  Finset.range img.w ×ˢ Finset.range img.h

/-- A pixel lies in the circular aperture of radius `r` centered at `c` when
its center is at distance at most `r` from `c`. -/
def inCircle (c : ℚ × ℚ) (r : ℚ) (p : ℕ × ℕ) : Prop :=
  ((p.1 : ℚ) - c.1) ^ 2 + ((p.2 : ℚ) - c.2) ^ 2 ≤ r ^ 2

instance (c : ℚ × ℚ) (r : ℚ) (p : ℕ × ℕ) : Decidable (inCircle c r p) := by
  unfold inCircle; infer_instance

/-- A pixel lies in the circular annulus of radii `rIn ≤ d ≤ rOut` centered
at `c` when its center's distance `d` from `c` is between the two radii. -/
def inAnnulus (c : ℚ × ℚ) (rIn rOut : ℚ) (p : ℕ × ℕ) : Prop :=
  rIn ^ 2 ≤ ((p.1 : ℚ) - c.1) ^ 2 + ((p.2 : ℚ) - c.2) ^ 2 ∧
    ((p.1 : ℚ) - c.1) ^ 2 + ((p.2 : ℚ) - c.2) ^ 2 ≤ rOut ^ 2

instance (c : ℚ × ℚ) (rIn rOut : ℚ) (p : ℕ × ℕ) :
    Decidable (inAnnulus c rIn rOut p) := by
  unfold inAnnulus; infer_instance

/-- Modelled from the spec: the 0/1 pixel mask of a photutils
`CircularAperture` (the library source is not part of this repository); the
glossary describes aperture photometry as summing pixel flux values within a
circular region centered on a source. -/
def apertureMask (c : ℚ × ℚ) (r : ℚ) (p : ℕ × ℕ) : ℚ :=
  if inCircle c r p then 1 else 0

/-- Modelled from the spec: the 0/1 pixel mask of a photutils
`CircularAnnulus` (the library source is not part of this repository); the
glossary describes the background annulus as a ring-shaped region around the
aperture. -/
def annulusMask (c : ℚ × ℚ) (rIn rOut : ℚ) (p : ℕ × ℕ) : ℚ :=
  if inAnnulus c rIn rOut p then 1 else 0

/-- Modelled from the spec: photutils `aperture_photometry` applied to a
`CircularAperture` — the mask-weighted sum of the pixel fluxes. -/
def aperture_photometry_circle (img : Image) (c : ℚ × ℚ) (r : ℚ) : ℚ :=
  ∑ p ∈ img.grid, apertureMask c r p * img.pix p.1 p.2

/-- Modelled from the spec: photutils `aperture_photometry` applied to a
`CircularAnnulus` — the mask-weighted sum of the pixel fluxes. -/
def aperture_photometry_annulus (img : Image) (c : ℚ × ℚ) (rIn rOut : ℚ) : ℚ :=
  ∑ p ∈ img.grid, annulusMask c rIn rOut p * img.pix p.1 p.2

/-- Modelled from the spec: photutils `CircularAperture.area`, the exact
geometric area of the circle of radius `r`. -/
noncomputable def circularApertureArea (r : ℚ) : ℝ :=
  Real.pi * (r : ℝ) ^ 2

/-- Modelled from the spec: photutils `CircularAnnulus.area`, the exact
geometric area of the ring of radii `rIn`, `rOut`. -/
noncomputable def circularAnnulusArea (rIn rOut : ℚ) : ℝ :=
  Real.pi * ((rOut : ℝ) ^ 2 - (rIn : ℝ) ^ 2)

/-- The function get_aperture_sum from the basic photometry notebook: builds the
circular aperture at `pos_pix` of radius `r_pix`, runs aperture photometry
on `data[0].data`, and returns the aperture sum together with the aperture's
area (the aperture object itself is determined by `pos_pix` and `r_pix`). -/
noncomputable def get_aperture_sum (img : Image) (pos_pix : ℚ × ℚ) (r_pix : ℚ) :
    ℚ × ℝ :=
  (aperture_photometry_circle img pos_pix r_pix, circularApertureArea r_pix)

/-- The quantity bkg_mean from the notebook: the flux average in the background
annulus, i.e. the annulus aperture sum divided by the annulus area. -/
noncomputable def bkg_mean (img : Image) (c : ℚ × ℚ) (rIn rOut : ℚ) : ℝ :=
  (aperture_photometry_annulus img c rIn rOut : ℝ) / circularAnnulusArea rIn rOut

/-- The quantity flux_background_subtracted from the notebook: the aperture flux sum
with the background average removed. -/
noncomputable def flux_background_subtracted (img : Image) (c : ℚ × ℚ)
    (r_ap rIn rOut : ℚ) : ℝ :=
  ((get_aperture_sum img c r_ap).1 : ℝ) - bkg_mean img c rIn rOut

/-- The spec-side reading of the aperture sum: the plain sum of the pixel
flux values lying within the circular region (glossary, "Aperture
photometry"). -/
def specApertureSum (img : Image) (c : ℚ × ℚ) (r : ℚ) : ℚ :=
  ∑ p ∈ img.grid.filter (fun p => inCircle c r p), img.pix p.1 p.2

/-- The spec-side reading of the annulus sum: the plain sum of the pixel
flux values lying within the ring-shaped region. -/
def specAnnulusSum (img : Image) (c : ℚ × ℚ) (rIn rOut : ℚ) : ℚ :=
  ∑ p ∈ img.grid.filter (fun p => inAnnulus c rIn rOut p), img.pix p.1 p.2

/-- The quantity sigma_m from the notebook, the relative uncertainty: the quadrature
sum of the relative photometric error, the relative flux-calibration error
`ERRCALF / CALFCTR`, and the 5% flux-calibration-model term. -/
noncomputable def sigma_m (r_ap annulus_std flux errcalf calfctr : ℝ) : ℝ :=
  Real.sqrt
    (2 * Real.pi * (r_ap * annulus_std / flux) ^ 2
      + (errcalf / calfctr) ^ 2
      + (0.05 : ℝ) ^ 2)

/-- The quantity absolute_uncertainty from the notebook: the relative uncertainty
scaled by the background-subtracted flux. -/
noncomputable def absolute_uncertainty (r_ap annulus_std flux errcalf calfctr : ℝ) :
    ℝ :=
  sigma_m r_ap annulus_std flux errcalf calfctr * flux

/-- The radicand of `sigma_m`, named for the guarded embedding. -/
noncomputable def sigma_m_radicand (r_ap annulus_std flux errcalf calfctr : ℝ) : ℝ :=
  2 * Real.pi * (r_ap * annulus_std / flux) ^ 2
    + (errcalf / calfctr) ^ 2
    + (0.05 : ℝ) ^ 2

open Classical in
/-- The relative-uncertainty computation with its error branches made
explicit: the code divides by `flux` and by `CALFCTR` with no guard and
takes a square root with no sign check, so the checked embedding returns
`none` exactly when a division by zero or a negative radicand occurs. -/
noncomputable def sigma_m_checked (r_ap annulus_std flux errcalf calfctr : ℝ) :
    Option ℝ :=
  if flux = 0 then none
  else if calfctr = 0 then none
  else if sigma_m_radicand r_ap annulus_std flux errcalf calfctr < 0 then none
  else some (Real.sqrt (sigma_m_radicand r_ap annulus_std flux errcalf calfctr))

/-- Straight-line arithmetic expressions over the five inputs of the
relative-uncertainty line (`r_ap`, `annulus_std`, `flux_background_subtracted`,
`ERRCALF`, `CALFCTR`), with the constants and operations that line uses. -/
inductive PExpr where
  | const : ℚ → PExpr
  | pi : PExpr
  | var : Fin 5 → PExpr
  | add : PExpr → PExpr → PExpr
  | mul : PExpr → PExpr → PExpr
  | div : PExpr → PExpr → PExpr
  | sq : PExpr → PExpr
  | sqrt : PExpr → PExpr
deriving DecidableEq

/-- Evaluation of a straight-line expression at an environment. -/
noncomputable def PExpr.eval (env : Fin 5 → ℝ) : PExpr → ℝ
  | .const q => (q : ℝ)
  | .pi => Real.pi
  | .var i => env i
  | .add a b => a.eval env + b.eval env
  | .mul a b => a.eval env * b.eval env
  | .div a b => a.eval env / b.eval env
  | .sq a => a.eval env ^ 2
  | .sqrt a => Real.sqrt (a.eval env)

/-- Number of multiplication nodes of a straight-line expression. -/
def PExpr.mulCount : PExpr → ℕ
  | .const _ => 0
  | .pi => 0
  | .var _ => 0
  | .add a b => a.mulCount + b.mulCount
  | .mul a b => a.mulCount + b.mulCount + 1
  | .div a b => a.mulCount + b.mulCount
  | .sq a => a.mulCount
  | .sqrt a => a.mulCount

/-- Number of division nodes of a straight-line expression. -/
def PExpr.divCount : PExpr → ℕ
  | .const _ => 0
  | .pi => 0
  | .var _ => 0
  | .add a b => a.divCount + b.divCount
  | .mul a b => a.divCount + b.divCount
  | .div a b => a.divCount + b.divCount + 1
  | .sq a => a.divCount
  | .sqrt a => a.divCount

/-- Number of squaring nodes of a straight-line expression. -/
def PExpr.sqCount : PExpr → ℕ
  | .const _ => 0
  | .pi => 0
  | .var _ => 0
  | .add a b => a.sqCount + b.sqCount
  | .mul a b => a.sqCount + b.sqCount
  | .div a b => a.sqCount + b.sqCount
  | .sq a => a.sqCount + 1
  | .sqrt a => a.sqCount

/-- Number of addition nodes of a straight-line expression. -/
def PExpr.addCount : PExpr → ℕ
  | .const _ => 0
  | .pi => 0
  | .var _ => 0
  | .add a b => a.addCount + b.addCount + 1
  | .mul a b => a.addCount + b.addCount
  | .div a b => a.addCount + b.addCount
  | .sq a => a.addCount
  | .sqrt a => a.addCount

/-- Number of square-root nodes of a straight-line expression. -/
def PExpr.sqrtCount : PExpr → ℕ
  | .const _ => 0
  | .pi => 0
  | .var _ => 0
  | .add a b => a.sqrtCount + b.sqrtCount
  | .mul a b => a.sqrtCount + b.sqrtCount
  | .div a b => a.sqrtCount + b.sqrtCount
  | .sq a => a.sqrtCount
  | .sqrt a => a.sqrtCount + 1

/-- The sigma_m source line as a straight-line expression, with Python's
grouping: `sqrt(2 * pi * (r_ap * annulus_std / flux) ** 2 +
(ERRCALF / CALFCTR) ** 2 + 0.05 ** 2)`; variables 0..4 stand for `r_ap`,
`annulus_std`, `flux_background_subtracted`, `ERRCALF`, `CALFCTR`. -/
def sigmaExprCode : PExpr :=
  .sqrt
    (.add
      (.add
        (.mul (.mul (.const 2) .pi)
          (.sq (.div (.mul (.var 0) (.var 1)) (.var 2))))
        (.sq (.div (.var 3) (.var 4))))
      (.sq (.const 0.05)))

/-- The quantity v_corrected from the EXES velocity notebook: the systemic velocity
minus the heliocentric correction `vgeo`; `vgeo` itself is produced by
astropy's radial_velocity_correction, an external library call, so it is
an input of the embedding. -/
def v_corrected (v_sys vgeo : ℚ) : ℚ :=
  v_sys - vgeo

/-- The velocity shift as the claim states it: systemic velocity with the
heliocentric correction removed and with a wind/expansion term included. -/
def v_corrected_claim (v_sys vgeo v_wind : ℚ) : ℚ :=
  v_sys - vgeo + v_wind

/-- The masked image annulus_data, i.e. `annulus_mask.multiply(data[0].data)`: the pixel fluxes
multiplied by the 0/1 annulus mask (the photutils cutout is modelled on the
full grid; only its standard deviation is used downstream). -/
def annulus_data (img : Image) (c : ℚ × ℚ) (rIn rOut : ℚ) : Image :=
  ⟨img.w, img.h, fun x y => annulusMask c rIn rOut (x, y) * img.pix x y⟩

/-- The numpy mean `np.mean` over an image's pixels. -/
noncomputable def npMean (img : Image) : ℝ :=
  (∑ p ∈ img.grid, (img.pix p.1 p.2 : ℝ)) / (img.w * img.h)

/-- The numpy standard deviation `np.std` over an image's pixels: the population standard deviation. -/
noncomputable def npStd (img : Image) : ℝ :=
  Real.sqrt ((∑ p ∈ img.grid, ((img.pix p.1 p.2 : ℝ) - npMean img) ^ 2)
    / (img.w * img.h))

/-- The interpreter state the photometry notebook touches: the loaded image
plane `data[0].data` and the FITS header `hdr`. -/
structure NotebookState where
  data0 : Image
  hdr : Header

/-- The user options of the basic photometry notebook: source position in
pixel coordinates, aperture radius, and annulus radii. -/
structure PhotometryParams where
  pos : ℚ × ℚ
  r_ap : ℚ
  rIn : ℚ
  rOut : ℚ

/-- The values the notebook prints: background-subtracted flux, relative
uncertainty, absolute uncertainty. -/
structure PhotometryOutputs where
  flux : ℝ
  rel : ℝ
  absU : ℝ

/-- The aperture-sum cell: reads the state, returns the result and the
state it leaves behind (the numpy/photutils calls do not write to the
loaded array or header). -/
noncomputable def step_aperture_sum (p : PhotometryParams) (st : NotebookState) :
    (ℚ × ℝ) × NotebookState :=
  (get_aperture_sum st.data0 p.pos p.r_ap, st)

/-- The background-mean cell: annulus photometry on the state's image,
divided by the annulus area. -/
noncomputable def step_bkg_mean (p : PhotometryParams) (st : NotebookState) :
    ℝ × NotebookState :=
  (bkg_mean st.data0 p.pos p.rIn p.rOut, st)

/-- The annulus-standard-deviation cell: builds the masked annulus image
and takes `np.std` of it. -/
noncomputable def step_annulus_std (p : PhotometryParams) (st : NotebookState) :
    ℝ × NotebookState :=
  (npStd (annulus_data st.data0 p.pos p.rIn p.rOut), st)

/-- The whole photometry run, threading the interpreter state through every
cell: aperture sum, background mean, background subtraction, annulus
standard deviation, relative uncertainty, absolute uncertainty. -/
noncomputable def run_photometry (p : PhotometryParams) (st : NotebookState) :
    PhotometryOutputs × NotebookState :=
  let ap := step_aperture_sum p st
  let bkg := step_bkg_mean p ap.2
  let flux : ℝ := (ap.1.1 : ℝ) - bkg.1
  let std := step_annulus_std p bkg.2
  let rel := sigma_m (p.r_ap : ℝ) std.1 flux (std.2.hdr.ERRCALF : ℝ)
    (std.2.hdr.CALFCTR : ℝ)
  let absU := rel * flux
  (⟨flux, rel, absU⟩, std.2)

end Recipes

namespace Recipes

lemma aperture_photometry_circle_eq_filter (img : Image) (c : ℚ × ℚ) (r : ℚ) :
    aperture_photometry_circle img c r = specApertureSum img c r := by
  unfold aperture_photometry_circle specApertureSum apertureMask
  rw [Finset.sum_filter]
  refine Finset.sum_congr rfl fun p _ => ?_
  by_cases h : inCircle c r p <;> simp [h]

lemma aperture_photometry_annulus_eq_filter (img : Image) (c : ℚ × ℚ)
    (rIn rOut : ℚ) :
    aperture_photometry_annulus img c rIn rOut = specAnnulusSum img c rIn rOut := by
  unfold aperture_photometry_annulus specAnnulusSum annulusMask
  rw [Finset.sum_filter]
  refine Finset.sum_congr rfl fun p _ => ?_
  by_cases h : inAnnulus c rIn rOut p <;> simp [h]

lemma sigma_m_radicand_nonneg (r_ap annulus_std flux errcalf calfctr : ℝ) :
    0 ≤ sigma_m_radicand r_ap annulus_std flux errcalf calfctr := by
  unfold sigma_m_radicand
  have h1 : 0 ≤ 2 * Real.pi * (r_ap * annulus_std / flux) ^ 2 := by positivity
  have h2 : 0 ≤ (errcalf / calfctr) ^ 2 := by positivity
  nlinarith [sq_nonneg ((0.05 : ℝ))]

lemma sigma_m_ge_floor (r_ap annulus_std flux errcalf calfctr : ℝ) :
    0.05 ≤ sigma_m r_ap annulus_std flux errcalf calfctr := by
  unfold sigma_m
  have h : ((0.05 : ℝ)) ^ 2 ≤
      2 * Real.pi * (r_ap * annulus_std / flux) ^ 2
        + (errcalf / calfctr) ^ 2 + (0.05 : ℝ) ^ 2 := by
    have h1 : 0 ≤ 2 * Real.pi * (r_ap * annulus_std / flux) ^ 2 := by positivity
    have h2 : 0 ≤ (errcalf / calfctr) ^ 2 := by positivity
    linarith
  calc (0.05 : ℝ) = Real.sqrt ((0.05 : ℝ) ^ 2) := by
        rw [Real.sqrt_sq (by norm_num : (0 : ℝ) ≤ 0.05)]
    _ ≤ _ := Real.sqrt_le_sqrt h

/-- C3: get_aperture_sum returns the sum of the pixel flux values lying
within the circular region of radius `r_pix` centered on the given source
position, together with the area `π r_pix²` of that circle. -/
theorem get_aperture_sum_spec (img : Image) (pos_pix : ℚ × ℚ) (r_pix : ℚ)
    (_hr : 0 < r_pix) :
    (get_aperture_sum img pos_pix r_pix).1 = specApertureSum img pos_pix r_pix ∧
      (get_aperture_sum img pos_pix r_pix).2 = Real.pi * (r_pix : ℝ) ^ 2 := by
  refine ⟨?_, rfl⟩
  exact aperture_photometry_circle_eq_filter img pos_pix r_pix

/-- Witness for C3 at a concrete 3×3 image, center (1,1), radius 1. -/
theorem get_aperture_sum_spec_witness :
    0 < (1 : ℚ) ∧
      ((get_aperture_sum ⟨3, 3, fun x y => (x : ℚ) + 2 * y⟩ (1, 1) 1).1 =
          specApertureSum ⟨3, 3, fun x y => (x : ℚ) + 2 * y⟩ (1, 1) 1 ∧
        (get_aperture_sum ⟨3, 3, fun x y => (x : ℚ) + 2 * y⟩ (1, 1) 1).2 =
          Real.pi * ((1 : ℚ) : ℝ) ^ 2) :=
  ⟨by norm_num,
    get_aperture_sum_spec ⟨3, 3, fun x y => (x : ℚ) + 2 * y⟩ (1, 1) 1 (by norm_num)⟩

/-- C2: for every image, aperture and background annulus, the
background-subtracted flux equals the sum of the pixel fluxes inside the
circular aperture minus the mean per-pixel background in the annulus, the
latter being the annulus aperture sum divided by the annulus area. -/
theorem flux_background_subtracted_spec (img : Image) (c : ℚ × ℚ)
    (r_ap rIn rOut : ℚ) :
    flux_background_subtracted img c r_ap rIn rOut =
      (specApertureSum img c r_ap : ℝ) -
        (specAnnulusSum img c rIn rOut : ℝ) / circularAnnulusArea rIn rOut := by
  unfold flux_background_subtracted bkg_mean get_aperture_sum
  rw [aperture_photometry_circle_eq_filter, aperture_photometry_annulus_eq_filter]

/-- C1: for every aperture radius, annulus standard deviation,
background-subtracted flux, ERRCALF and CALFCTR with the flux and CALFCTR
nonzero and a nonnegative radicand, the relative uncertainty computed by
the notebook equals `sqrt (2π (r σ_B / F₀)² + (ERRCALF/CALFCTR)² + 0.05²)`,
and its square recovers the radicand. -/
theorem sigma_m_formula (r_ap annulus_std flux errcalf calfctr : ℝ)
    (_hF : flux ≠ 0) (_hC : calfctr ≠ 0)
    (hrad : 0 ≤ 2 * Real.pi * (r_ap * annulus_std / flux) ^ 2
        + (errcalf / calfctr) ^ 2 + (0.05 : ℝ) ^ 2) :
    sigma_m r_ap annulus_std flux errcalf calfctr =
      Real.sqrt (2 * Real.pi * (r_ap * annulus_std / flux) ^ 2
        + (errcalf / calfctr) ^ 2 + (0.05 : ℝ) ^ 2) ∧
      (sigma_m r_ap annulus_std flux errcalf calfctr) ^ 2 =
        2 * Real.pi * (r_ap * annulus_std / flux) ^ 2
          + (errcalf / calfctr) ^ 2 + (0.05 : ℝ) ^ 2 :=
  ⟨rfl, Real.sq_sqrt hrad⟩

/-- Witness for C1 at `r_ap = 1`, `σ_B = 0`, `F₀ = 1`, `ERRCALF = 0`,
`CALFCTR = 1`. -/
theorem sigma_m_formula_witness :
    (1 : ℝ) ≠ 0 ∧
      (sigma_m 1 0 1 0 1 =
          Real.sqrt (2 * Real.pi * ((1 : ℝ) * 0 / 1) ^ 2
            + ((0 : ℝ) / 1) ^ 2 + (0.05 : ℝ) ^ 2) ∧
        (sigma_m 1 0 1 0 1) ^ 2 =
          2 * Real.pi * ((1 : ℝ) * 0 / 1) ^ 2
            + ((0 : ℝ) / 1) ^ 2 + (0.05 : ℝ) ^ 2) :=
  ⟨by norm_num, sigma_m_formula 1 0 1 0 1 (by norm_num) (by norm_num) (by positivity)⟩

/-- C9: for every input with nonzero background-subtracted flux and nonzero
CALFCTR, the relative uncertainty is at least 0.05: the fixed 5%
flux-calibration-model term is a floor. -/
theorem sigma_m_ge_five_percent (r_ap annulus_std flux errcalf calfctr : ℝ)
    (_hF : flux ≠ 0) (_hC : calfctr ≠ 0) :
    0.05 ≤ sigma_m r_ap annulus_std flux errcalf calfctr :=
  sigma_m_ge_floor r_ap annulus_std flux errcalf calfctr

/-- Witness for C9 at `r_ap = 3`, `σ_B = 2`, `F₀ = 7`, `ERRCALF = 1`,
`CALFCTR = 5`. -/
theorem sigma_m_ge_five_percent_witness :
    (7 : ℝ) ≠ 0 ∧ (5 : ℝ) ≠ 0 ∧ 0.05 ≤ sigma_m 3 2 7 1 5 :=
  ⟨by norm_num, by norm_num,
    sigma_m_ge_five_percent 3 2 7 1 5 (by norm_num) (by norm_num)⟩

/-- C10: the absolute uncertainty equals the relative uncertainty times the
background-subtracted flux; dividing it back by a nonzero flux recovers the
relative uncertainty exactly, and a negative flux yields a negative
absolute uncertainty. -/
theorem absolute_uncertainty_spec (r_ap annulus_std flux errcalf calfctr : ℝ) :
    absolute_uncertainty r_ap annulus_std flux errcalf calfctr =
        sigma_m r_ap annulus_std flux errcalf calfctr * flux ∧
      (flux ≠ 0 →
        absolute_uncertainty r_ap annulus_std flux errcalf calfctr / flux =
          sigma_m r_ap annulus_std flux errcalf calfctr) ∧
      (flux < 0 →
        absolute_uncertainty r_ap annulus_std flux errcalf calfctr < 0) := by
  refine ⟨rfl, fun hF => ?_, fun hneg => ?_⟩
  · exact mul_div_cancel_right₀ _ hF
  · have hpos : 0 < sigma_m r_ap annulus_std flux errcalf calfctr :=
      lt_of_lt_of_le (by norm_num)
        (sigma_m_ge_floor r_ap annulus_std flux errcalf calfctr)
    exact mul_neg_of_pos_of_neg hpos hneg

/-- Witness for C10 at flux `-2`, with the other inputs `1`. -/
theorem absolute_uncertainty_spec_witness :
    absolute_uncertainty 1 1 (-2) 1 1 / (-2) = sigma_m 1 1 (-2) 1 1 ∧
      absolute_uncertainty 1 1 (-2) 1 1 < 0 :=
  ⟨(absolute_uncertainty_spec 1 1 (-2) 1 1).2.1 (by norm_num),
    (absolute_uncertainty_spec 1 1 (-2) 1 1).2.2 (by norm_num)⟩

/-- C8: under the precondition that the background-subtracted flux and
CALFCTR are nonzero and the radicand is nonnegative, the guarded embedding
of the relative-uncertainty computation takes no error branch and returns
the unguarded value. -/
theorem sigma_m_checked_total (r_ap annulus_std flux errcalf calfctr : ℝ)
    (hF : flux ≠ 0) (hC : calfctr ≠ 0)
    (hrad : 0 ≤ sigma_m_radicand r_ap annulus_std flux errcalf calfctr) :
    sigma_m_checked r_ap annulus_std flux errcalf calfctr =
      some (sigma_m r_ap annulus_std flux errcalf calfctr) := by
  unfold sigma_m_checked
  rw [if_neg hF, if_neg hC, if_neg (not_lt.mpr hrad)]
  rfl

/-- Witness for C8 at `r_ap = 2`, `σ_B = 1`, `F₀ = 3`, `ERRCALF = 1`,
`CALFCTR = 4`. -/
theorem sigma_m_checked_total_witness :
    (3 : ℝ) ≠ 0 ∧ (4 : ℝ) ≠ 0 ∧ 0 ≤ sigma_m_radicand 2 1 3 1 4 ∧
      sigma_m_checked 2 1 3 1 4 = some (sigma_m 2 1 3 1 4) :=
  ⟨by norm_num, by norm_num, sigma_m_radicand_nonneg 2 1 3 1 4,
    sigma_m_checked_total 2 1 3 1 4 (by norm_num) (by norm_num)
      (sigma_m_radicand_nonneg 2 1 3 1 4)⟩

/-- C6 counterexample: the code's uncertainty expression, embedded as a
straight-line program, contains two division nodes, not one as the claim
states. -/
theorem sigmaExprCode_not_one_div :
    PExpr.divCount sigmaExprCode = 2 ∧ PExpr.divCount sigmaExprCode ≠ 1 := by
  constructor
  · rfl
  · intro h
    exact absurd h (by decide)

/-- C6 (amended): the code's uncertainty expression, embedded as a
straight-line program, consists of three multiplications, two divisions,
three squarings, two additions and one square root, and evaluates on every
input to the reference formula
`sqrt (2π (r σ_B / F₀)² + (ERRCALF/CALFCTR)² + 0.05²)`. -/
theorem sigmaExprCode_spec :
    PExpr.mulCount sigmaExprCode = 3 ∧
      PExpr.divCount sigmaExprCode = 2 ∧
      PExpr.sqCount sigmaExprCode = 3 ∧
      PExpr.addCount sigmaExprCode = 2 ∧
      PExpr.sqrtCount sigmaExprCode = 1 ∧
      ∀ env : Fin 5 → ℝ,
        PExpr.eval env sigmaExprCode =
          Real.sqrt (2 * Real.pi * (env 0 * env 1 / env 2) ^ 2
            + (env 3 / env 4) ^ 2 + (0.05 : ℝ) ^ 2) := by
  refine ⟨rfl, rfl, rfl, rfl, rfl, fun env => ?_⟩
  unfold sigmaExprCode
  simp only [PExpr.eval]
  norm_num

/-- C4 counterexample: the notebook's corrected velocity uses only the
systemic velocity and the heliocentric correction; at systemic velocity 15
km/s, heliocentric correction 2 km/s and a wind term of 1 km/s, it differs
from the claim's formula that includes the wind term. -/
theorem v_corrected_no_wind :
    v_corrected 15 2 ≠ v_corrected_claim 15 2 1 := by
  unfold v_corrected v_corrected_claim
  norm_num

/-- C4 (amended): the corrected velocity equals the systemic velocity minus
the heliocentric correction — adding the correction back recovers the
systemic velocity — and no wind/expansion term is applied by the code; the
notebook only reminds the reader to add such shifts by hand. -/
theorem v_corrected_spec (v_sys vgeo : ℚ) :
    v_corrected v_sys vgeo = v_sys - vgeo ∧
      v_corrected v_sys vgeo + vgeo = v_sys := by
  refine ⟨rfl, ?_⟩
  unfold v_corrected
  ring

/-- C7: a whole photometry run reads but never modifies the loaded image
array and header — the final interpreter state is the initial one — and its
outputs are exactly the background-subtracted flux, the relative
uncertainty at the annulus standard deviation, and the absolute
uncertainty. -/
theorem run_photometry_frame (p : PhotometryParams) (st : NotebookState) :
    (run_photometry p st).2.data0 = st.data0 ∧
      (run_photometry p st).2.hdr = st.hdr ∧
      (run_photometry p st).2 = st ∧
      (run_photometry p st).1.flux =
        flux_background_subtracted st.data0 p.pos p.r_ap p.rIn p.rOut ∧
      (run_photometry p st).1.rel =
        sigma_m (p.r_ap : ℝ) (npStd (annulus_data st.data0 p.pos p.rIn p.rOut))
          (flux_background_subtracted st.data0 p.pos p.r_ap p.rIn p.rOut)
          (st.hdr.ERRCALF : ℝ) (st.hdr.CALFCTR : ℝ) ∧
      (run_photometry p st).1.absU =
        (run_photometry p st).1.rel * (run_photometry p st).1.flux :=
  ⟨rfl, rfl, rfl, rfl, rfl, rfl⟩

end Recipes
